import Mathlib

/-!
Shallow embedding of the core of the `fortune-rs` Voronoi generator
(`src/quadratic.rs`, `src/linear.rs`, `src/matrix.rs`,
`src/row_matrix_view.rs`, `src/geom.rs`, `src/voronoi.rs`).

Modelling conventions:
* `f64` values are modelled as exact rationals (`ℚ`).  All arithmetic in
  the embedded code is `+ - * /` and comparisons, which the model performs
  exactly; `f64::sqrt` has no exact rational counterpart, so every
  function that needs it takes an explicit `sqrtQ : ℚ → ℚ` parameter.
  `ratSqrt` below is the canonical instantiation; it is exact on
  rationals whose numerator and denominator are perfect squares, which
  covers every concrete input used in the theorems (`f64` is also exact
  there).  NaN never arises in the model.
* Rust panics (`panic!`, `expect`, `unwrap`, out-of-range `Vec` indexing
  inside control structures that the code relies on) are modelled by
  `Option`/`none`; loops whose termination is not structural take a
  `fuel` argument, `none` meaning fuel exhaustion (the Rust loop would
  still be running).
* Mutation is modelled by explicit state passing.
-/

namespace Fortune

-- Restore definitional reducibility of the rational operations so that
-- concrete runs of the embedded code can be evaluated by `decide`.
attribute [local semireducible] Rat.add Rat.mul Rat.sub Rat.inv

/-- Update index `i` of a list through `f`; `none` when out of range
(a Rust `Vec` index panic). -/
def listSet? {α : Type} (l : List α) (i : ℕ) (f : α → α) : Option (List α) := do
  let x ← l.get? i
  some (l.set i (f x))

/-- Largest `k ≤ bound` with `k * k ≤ n` (simple structural integer square
root, used only on small concrete inputs). -/
def natSqrtBelow : ℕ → ℕ → ℕ
  | _, 0 => 0
  | n, k + 1 => if (k + 1) * (k + 1) ≤ n then k + 1 else natSqrtBelow n k

/-- Canonical exact square root on `ℚ`: exact whenever numerator and
denominator are perfect squares (all concrete uses in this file). -/
def ratSqrt (q : ℚ) : ℚ :=
  (natSqrtBelow q.num.toNat q.num.toNat : ℚ) / (natSqrtBelow q.den q.den : ℚ)

/-! ## quadratic.rs -/

/-- `quadratic::Solution`. -/
inductive QuadSolution where
  | none : QuadSolution
  | one (x : ℚ) : QuadSolution
  | two (x1 x2 : ℚ) : QuadSolution
deriving DecidableEq

/-- `quadratic::solve(quadratic, linear, constant)`; `sqrtQ` models
`f64::sqrt` (see header). -/
def solveQuadratic (sqrtQ : ℚ → ℚ) (a b c : ℚ) : QuadSolution :=
  let discr := b * b - 4 * a * c
  if 0 < discr then
    let discrSqrt := sqrtQ discr
    let dv := 2 * a
    let x1 := (-b - discrSqrt) / dv
    let x2 := (-b + discrSqrt) / dv
    if x1 < x2 then .two x1 x2 else .two x2 x1
  else if discr < 0 then .none
  else .one (-b / (2 * a))

/-! ## matrix.rs / row_matrix_view.rs -/

/-- `matrix::MatrixVarF64`: a rows×cols matrix stored row-major in a flat
vector.  The fixed `Matrix2x3F64` used by `geom.rs` is modelled as the
`rows = 2, cols = 3` case of this type (identical `get`/`set`/`rows`/`cols`
behaviour). -/
structure MatrixVar where
  rows : ℕ
  cols : ℕ
  values : List ℚ
deriving DecidableEq

/-- `MatrixVarF64::new`: zero-filled. -/
def MatrixVar.new (rows cols : ℕ) : MatrixVar :=
  ⟨rows, cols, List.replicate (rows * cols) 0⟩

/-- `Matrix::get`: `values[row * cols + col]`.  The Rust index panics out
of range; every solver access is in range for a well-formed matrix, the
model totalises with default `0`. -/
def MatrixVar.get (m : MatrixVar) (row col : ℕ) : ℚ :=
  m.values.getD (row * m.cols + col) 0

/-- `Matrix::set`: `values[row * cols + col] = value`. -/
def MatrixVar.set (m : MatrixVar) (row col : ℕ) (value : ℚ) : MatrixVar :=
  { m with values := m.values.set (row * m.cols + col) value }

/-- `row_matrix_view::RowMatrixView`: source matrix plus a row
permutation table (source field `rows`). -/
structure RowMatrixView where
  src : MatrixVar
  perm : List ℕ
deriving DecidableEq

/-- `RowMatrixView::from_matrix`: identity permutation. -/
def RowMatrixView.fromMatrix (m : MatrixVar) : RowMatrixView :=
  ⟨m, List.range m.rows⟩

/-- `RowMatrixView::swap_rows` (`Vec::swap` on the permutation table). -/
def RowMatrixView.swapRows (v : RowMatrixView) (first second : ℕ) : RowMatrixView :=
  let a := v.perm.getD first 0
  let b := v.perm.getD second 0
  { v with perm := (v.perm.set first b).set second a }

/-- `Matrix::rows` for the view: delegates to the source matrix. -/
def RowMatrixView.rowsN (v : RowMatrixView) : ℕ := v.src.rows

/-- `Matrix::cols` for the view. -/
def RowMatrixView.colsN (v : RowMatrixView) : ℕ := v.src.cols

/-- `Matrix::get` for the view: reads through the permutation table. -/
def RowMatrixView.get (v : RowMatrixView) (row col : ℕ) : ℚ :=
  v.src.get (v.perm.getD row 0) col

/-- `Matrix::set` for the view. -/
def RowMatrixView.set (v : RowMatrixView) (row col : ℕ) (value : ℚ) : RowMatrixView :=
  { v with src := v.src.set (v.perm.getD row 0) col value }

/-! ## linear.rs -/

/-- `linear::abs_pivot_value`. -/
def absPivotValue (value : ℚ) : ℚ := if value < 0 then -value else value

/-- `linear::find_pivot`: largest `|value|` in `col` among rows ≥ `start`;
swaps it into place; `false` when no nonzero pivot exists. -/
def findPivot (v : RowMatrixView) (start col : ℕ) : Bool × RowMatrixView :=
  let rows := v.rowsN
  if rows ≤ start then (false, v)
  else
    let init : ℕ × ℚ := (start, absPivotValue (v.get start col))
    let best := (List.range' (start + 1) (rows - (start + 1))).foldl
      (fun acc row =>
        let rowValue := absPivotValue (v.get row col)
        if acc.2 < rowValue then (row, rowValue) else acc) init
    if best.2 = 0 then (false, v)
    else if best.1 ≠ start then (true, v.swapRows best.1 start)
    else (true, v)

/-- `linear::eliminate_col`: partial Gaussian elimination of one column
(fraction-free row combination, as in the source). -/
def eliminateCol (v : RowMatrixView) (pivotRow pivotCol : ℕ) : RowMatrixView :=
  let pivotValue := v.get pivotRow pivotCol
  (List.range' (pivotRow + 1) (v.rowsN - (pivotRow + 1))).foldl
    (fun v row =>
      let rowValue := v.get row pivotCol
      if rowValue ≠ 0 then
        let v := v.set row pivotCol 0
        (List.range' (pivotCol + 1) (v.colsN - (pivotCol + 1))).foldl
          (fun v col =>
            v.set row col (v.get pivotRow col * rowValue - v.get row col * pivotValue)) v
      else v) v

/-- `linear::triangulate_upper`: returns the order (number of triangulated
rows) and the updated view. -/
def triangulateUpper (v : RowMatrixView) : ℕ × RowMatrixView :=
  let cols := v.colsN
  if cols = 0 then (0, v)
  else
    (List.range (cols - 1)).foldl
      (fun (acc : ℕ × RowMatrixView) col =>
        let (found, v) := findPivot acc.2 acc.1 col
        if found then (acc.1 + 1, eliminateCol v acc.1 col) else (acc.1, v))
      (0, v)

/-- `linear::SolveError`. -/
inductive SolveError where
  | noUniqueSolution : SolveError
deriving DecidableEq

deriving instance DecidableEq for Except

/-- One step of the back-substitution loop of
`linear::solve_from_row_matrix_view`. -/
def backSubstValue (v : RowMatrixView) (order : ℕ) (sol : List ℚ) (row : ℕ) : ℚ :=
  ((List.range' (row + 1) (order - (row + 1))).foldl
    (fun value col => value - v.get row col * sol.getD col 0) (-(v.get row order)))
    / v.get row row

/-- `linear::solve_from_row_matrix_view`: also returns the final view
state (the source mutates the matrix in place). -/
def solveFromRowMatrixView (v : RowMatrixView) :
    Except SolveError (List ℚ) × RowMatrixView :=
  let rows := v.rowsN
  let cols := v.colsN
  if cols = 0 then (.ok [], v)
  else if rows + 1 < cols then (.error .noUniqueSolution, v)
  else
    let tri := triangulateUpper v
    let order := tri.1
    let v := tri.2
    if order = cols - 1 then
      let solution := ((List.range order).reverse).foldl
        (fun sol row => sol.set row (backSubstValue v order sol row))
        (List.replicate order (0 : ℚ))
      (.ok solution, v)
    else (.error .noUniqueSolution, v)

/-- `linear::solve_from_matrix`: wraps the matrix in a fresh row view;
returns the result and the final underlying matrix. -/
def solveFromMatrix (m : MatrixVar) : Except SolveError (List ℚ) × MatrixVar :=
  let r := solveFromRowMatrixView (RowMatrixView.fromMatrix m)
  (r.1, r.2.src)

/-! ## geom.rs -/

/-- `vector::Vector2F64` (`values[0]` = x, `values[1]` = y, accessed by
`get_x` / `get_y`). -/
structure Vector2F64 where
  x : ℚ
  y : ℚ
deriving DecidableEq

/-- `geom::BoundingBox`: the `points` array, in order left-top,
right-top, right-bottom, left-bottom. -/
structure BoundingBox where
  p0 : Vector2F64
  p1 : Vector2F64
  p2 : Vector2F64
  p3 : Vector2F64
deriving DecidableEq

/-- `BoundingBox::new`. -/
def BoundingBox.new (x1 x2 y1 y2 : ℚ) : BoundingBox :=
  let lr := if x2 < x1 then (x2, x1) else (x1, x2)
  let tb := if y2 < y1 then (y2, y1) else (y1, y2)
  ⟨⟨lr.1, tb.1⟩, ⟨lr.2, tb.1⟩, ⟨lr.2, tb.2⟩, ⟨lr.1, tb.2⟩⟩

/-- `IntersectionCalculator::set_parameter_equations`: fills the 2×3
buffer.  The source reuses one buffer per calculator; since every entry
is overwritten on each call, a fresh matrix is an equivalent model. -/
def setParameterEquations (firstPoint firstDir secondPoint secondDir : Vector2F64) :
    MatrixVar :=
  ⟨2, 3, [firstDir.x, -secondDir.x, firstPoint.x - secondPoint.x,
          firstDir.y, -secondDir.y, firstPoint.y - secondPoint.y]⟩

/-- `IntersectionCalculator::solve_for_parameters`.  The source indexes
`solution[0]` and `solution[1]` unchecked; `solveFromMatrix_ok_length`
below shows a successful solve always returns two entries, so the `getD`
defaults are never taken. -/
def solveForParameters (m : MatrixVar) : Option (ℚ × ℚ) :=
  match (solveFromMatrix m).1 with
  | .ok solution => some (solution.getD 0 0, solution.getD 1 0)
  | .error _ => none

/-- `IntersectionCalculator::substitute_parameter`. -/
def substituteParameter (point dir : Vector2F64) (param : ℚ) : Vector2F64 :=
  ⟨point.x + param * dir.x, point.y + param * dir.y⟩

/-- `IntersectionCalculator::line_with_line`. -/
def lineWithLine (firstPoint firstDir secondPoint secondDir : Vector2F64) :
    Option Vector2F64 :=
  (solveForParameters (setParameterEquations firstPoint firstDir secondPoint secondDir)).map
    (fun kj => substituteParameter firstPoint firstDir kj.1)

/-- `IntersectionCalculator::ray_with_segment`: parameters filtered by
`k ≥ 0 ∧ j ≥ 0 ∧ j ≤ 1`. -/
def rayWithSegment (firstPoint firstDir secondStart secondEnd : Vector2F64) :
    Option Vector2F64 :=
  let secondDir : Vector2F64 := ⟨secondEnd.x - secondStart.x, secondEnd.y - secondStart.y⟩
  ((solveForParameters (setParameterEquations firstPoint firstDir secondStart secondDir)).filter
    (fun kj => decide (0 ≤ kj.1 ∧ 0 ≤ kj.2 ∧ kj.2 ≤ 1))).map
    (fun kj => substituteParameter firstPoint firstDir kj.1)

/-- `IntersectionCalculator::ray_with_bounding_box`: the four sides in
order top (p0→p1), right (p1→p2), bottom (p2→p3), left (p3→p0), chained
by `or_else`. -/
def rayWithBoundingBox (firstPoint firstDir : Vector2F64) (boundingBox : BoundingBox) :
    Option Vector2F64 :=
  (rayWithSegment firstPoint firstDir boundingBox.p0 boundingBox.p1).orElse fun _ =>
    (rayWithSegment firstPoint firstDir boundingBox.p1 boundingBox.p2).orElse fun _ =>
      (rayWithSegment firstPoint firstDir boundingBox.p2 boundingBox.p3).orElse fun _ =>
        rayWithSegment firstPoint firstDir boundingBox.p3 boundingBox.p0

/-- `geom::vectors_are_dependent`. -/
def vectorsAreDependent (first second : Vector2F64) : Bool :=
  decide (first.x * second.y - second.x * first.y = 0)

/-- `geom::distance_between_points` (`sqrtQ` models `f64::sqrt`). -/
def distanceBetweenPoints (sqrtQ : ℚ → ℚ) (first second : Vector2F64) : ℚ :=
  let dx := first.x - second.x
  let dy := first.y - second.y
  sqrtQ (dx * dx + dy * dy)

/-- `IntersectionCalculator::circle_through_points`.  Outer `Option`:
the `expect` panic on the inner `line_with_line`; inner `Option`: the
collinear case of the source. -/
def circleThroughPoints (sqrtQ : ℚ → ℚ) (firstPoint secondPoint thirdPoint : Vector2F64) :
    Option (Option (Vector2F64 × ℚ)) :=
  let d1 : Vector2F64 := ⟨secondPoint.y - firstPoint.y, firstPoint.x - secondPoint.x⟩
  let d2 : Vector2F64 := ⟨secondPoint.y - thirdPoint.y, thirdPoint.x - secondPoint.x⟩
  if vectorsAreDependent d1 d2 then some none
  else
    let m1 : Vector2F64 := ⟨(firstPoint.x + secondPoint.x) / 2, (firstPoint.y + secondPoint.y) / 2⟩
    let m2 : Vector2F64 := ⟨(thirdPoint.x + secondPoint.x) / 2, (thirdPoint.y + secondPoint.y) / 2⟩
    match lineWithLine m1 d1 m2 d2 with
    | some focus => some (some (focus, distanceBetweenPoints sqrtQ focus firstPoint))
    | none => none

/-- `geom::ParabolaIntersection`. -/
inductive ParabolaIntersection where
  | none : ParabolaIntersection
  | one (p : Vector2F64) : ParabolaIntersection
  | two (p1 p2 : Vector2F64) : ParabolaIntersection
  | infinite : ParabolaIntersection
deriving DecidableEq

/-- `geom::calc_parabola_from_focus`.  The source divides by
`2 (focus.y − dir_y)` which callers keep nonzero; `ℚ` division by zero
yields `0` where `f64` yields `inf`, a divergence only on inputs the
source forbids. -/
def calcParabolaFromFocus (focus : Vector2F64) (dirY : ℚ) : ℚ × ℚ × ℚ :=
  let a := 1 / (2 * (focus.y - dirY))
  let b := -2 * focus.x * a
  let c := (focus.x * focus.x + focus.y * focus.y - dirY * dirY) * a
  (a, b, c)

/-- `geom::intersect_parabolas_from_foci`. -/
def intersectParabolasFromFoci (sqrtQ : ℚ → ℚ) (firstFocus secondFocus : Vector2F64)
    (dirY : ℚ) : ParabolaIntersection :=
  let abc1 := calcParabolaFromFocus firstFocus dirY
  let abc2 := calcParabolaFromFocus secondFocus dirY
  let a := abc2.1 - abc1.1
  let b := abc2.2.1 - abc1.2.1
  let c := abc2.2.2 - abc1.2.2
  if a = 0 ∧ b = 0 ∧ c = 0 then .infinite
  else
    match solveQuadratic sqrtQ a b c with
    | .none => .none
    | .one x => .one ⟨x, abc1.1 * x * x + abc1.2.1 * x + abc1.2.2⟩
    | .two x1 x2 => .two ⟨x1, abc1.1 * x1 * x1 + abc1.2.1 * x1 + abc1.2.2⟩
                         ⟨x2, abc1.1 * x2 * x2 + abc1.2.1 * x2 + abc1.2.2⟩

/-- `geom::is_clockwise`. -/
def isClockwise (first second : Vector2F64) : Bool :=
  decide (first.x * second.y - first.y * second.x < 0)

/-! ## voronoi.rs: data model -/

/-- `voronoi::Vertex`. -/
structure Vertex where
  id : ℕ
  x : ℚ
  y : ℚ
deriving DecidableEq

/-- `voronoi::HalfEdge` (finalized). -/
structure HalfEdge where
  id : ℕ
  faceId : ℕ
  startId : ℕ
  twinId : Option ℕ
  prevId : ℕ
  nextId : ℕ
deriving DecidableEq

/-- `voronoi::HalfEdgeBuilder`. -/
structure HalfEdgeBuilder where
  id : ℕ
  faceId : ℕ
  startId : Option ℕ
  twinId : Option ℕ
  prevId : Option ℕ
  nextId : Option ℕ
deriving DecidableEq

/-- `voronoi::Face` (finalized). -/
structure Face where
  id : ℕ
  x : ℚ
  y : ℚ
  startId : ℕ
deriving DecidableEq

/-- `voronoi::FaceBuilder`. -/
structure FaceBuilder where
  id : ℕ
  x : ℚ
  y : ℚ
  halfEdgeId : Option ℕ
  startId : Option ℕ
  endId : Option ℕ
deriving DecidableEq

/-- `voronoi::Diagram`. -/
structure Diagram where
  width : ℚ
  height : ℚ
  vertices : List Vertex
  halfEdges : List HalfEdge
  faces : List Face
deriving DecidableEq

/-- `HalfEdgeBuilder::into_half_edge` (`expect` panics modelled by
`none`). -/
def intoHalfEdge (hb : HalfEdgeBuilder) : Option HalfEdge := do
  let s ← hb.startId
  let p ← hb.prevId
  let n ← hb.nextId
  some ⟨hb.id, hb.faceId, s, hb.twinId, p, n⟩

/-- `FaceBuilder::into_face`. -/
def intoFace (fb : FaceBuilder) : Option Face := do
  let h ← fb.halfEdgeId
  some ⟨fb.id, fb.x, fb.y, h⟩

/-- `FaceBuilder::has_complete_bounds`. -/
def hasCompleteBounds (fb : FaceBuilder) : Bool :=
  fb.startId.isNone && fb.endId.isNone

/-- `voronoi::EventKind`. -/
inductive EventKind where
  | addArc (faceId : ℕ) : EventKind
  | removeArc (arcId : ℕ) : EventKind
deriving DecidableEq

/-- `voronoi::Event`. -/
structure Event where
  id : ℕ
  priority : ℚ
  kind : EventKind
deriving DecidableEq

/-- `Event::cmp`: priority first, id as tiebreak.  `partial_cmp` on
priorities returns `None` only for NaN, which the rational model
excludes, so the `Some(Equal) | None` arm is the equality arm here. -/
def eventCmp (a b : Event) : Ordering :=
  if a.priority < b.priority then .lt
  else if b.priority < a.priority then .gt
  else compare a.id b.id

/-- `BinaryHeap::pop`: removes and returns a maximal element with
respect to `Event::cmp`.  Deterministic model; it agrees with any heap
whenever `eventCmp` is total on the contents, i.e. whenever no two
distinct queued events share an id. -/
def popMax : List Event → Option (Event × List Event)
  | [] => none
  | e :: rest =>
    match popMax rest with
    | none => some (e, [])
    | some (m, others) =>
      if eventCmp e m = .lt then some (m, e :: others) else some (e, rest)

/-- `voronoi::NodeId`. -/
inductive NodeId where
  | edge (id : ℕ) : NodeId
  | arc (id : ℕ) : NodeId
deriving DecidableEq

/-- `voronoi::Edge` (beachline breakpoint node). -/
structure EdgeNode where
  id : ℕ
  halfEdgeId : ℕ
  parentId : Option ℕ
  leftChild : NodeId
  rightChild : NodeId
deriving DecidableEq

/-- `voronoi::Arc` (beachline leaf). -/
structure ArcNode where
  id : ℕ
  faceId : ℕ
  removeEventId : Option ℕ
  parentId : Option ℕ
deriving DecidableEq

/-- `voronoi::Builder` state.  The events list models the contents of
the `BinaryHeap`; the reused `IntersectionCalculator` buffer is omitted
because every use overwrites it completely. -/
structure Builder where
  width : ℚ
  height : ℚ
  vertices : List Vertex
  halfEdges : List HalfEdgeBuilder
  faces : List FaceBuilder
  events : List Event
  edges : List EdgeNode
  arcs : List ArcNode
  root : Option NodeId
deriving DecidableEq

/-! ## voronoi.rs: builder operations -/

/-- `Builder::new`. -/
def Builder.new (width height : ℚ) : Builder :=
  ⟨width, height, [], [], [], [], [], [], none⟩

/-- `Builder::add_site`. -/
def addSite (b : Builder) (x y : ℚ) : Builder :=
  { b with faces := b.faces ++ [⟨b.faces.length, x, y, none, none, none⟩] }

/-- `Builder::create_vertex`. -/
def createVertex (b : Builder) (x y : ℚ) : ℕ × Builder :=
  (b.vertices.length,
   { b with vertices := b.vertices ++ [⟨b.vertices.length, x, y⟩] })

/-- `Builder::create_half_edge`. -/
def createHalfEdge (b : Builder) (faceId : ℕ) (startId : Option ℕ) : ℕ × Builder :=
  (b.halfEdges.length,
   { b with halfEdges := b.halfEdges ++ [⟨b.halfEdges.length, faceId, startId, none, none, none⟩] })

/-- `Builder::create_half_edge_pair`. -/
def createHalfEdgePair (b : Builder) (faceId twinFaceId : ℕ) :
    Option ((ℕ × ℕ) × Builder) := do
  let (id, b) := createHalfEdge b faceId none
  let (twinId, b) := createHalfEdge b twinFaceId none
  let hes ← listSet? b.halfEdges id (fun he => { he with twinId := some twinId })
  let hes ← listSet? hes twinId (fun he => { he with twinId := some id })
  some ((id, twinId), { b with halfEdges := hes })

/-- `Builder::connect_half_edges` (its three `panic!` checks modelled by
`none`). -/
def connectHalfEdges (b : Builder) (firstId secondId : ℕ) : Option Builder := do
  let first ← b.halfEdges.get? firstId
  let second ← b.halfEdges.get? secondId
  if first.faceId ≠ second.faceId then none
  else if first.nextId.isSome then none
  else if second.prevId.isSome then none
  else do
    let hes ← listSet? b.halfEdges firstId (fun he => { he with nextId := some secondId })
    let hes ← listSet? hes secondId (fun he => { he with prevId := some firstId })
    some { b with halfEdges := hes }

/-- `Builder::create_arc`. -/
def createArc (b : Builder) (faceId : ℕ) : ℕ × Builder :=
  (b.arcs.length,
   { b with arcs := b.arcs ++ [⟨b.arcs.length, faceId, none, none⟩] })

/-- `Builder::create_edge`. -/
def createEdge (b : Builder) (halfEdgeId : ℕ) (leftChild rightChild : NodeId) :
    ℕ × Builder :=
  (b.edges.length,
   { b with edges := b.edges ++ [⟨b.edges.length, halfEdgeId, none, leftChild, rightChild⟩] })

/-- Descent loop shared by `find_prev_arc_id` (right children) — fueled. -/
def findArcDescendRight (b : Builder) : ℕ → NodeId → Option ℕ
  | 0, _ => none
  | _ + 1, .arc arcId => some arcId
  | fuel + 1, .edge edgeId => do
    let e ← b.edges.get? edgeId
    findArcDescendRight b fuel e.rightChild

/-- `Builder::find_prev_arc_id`. -/
def findPrevArcId (b : Builder) (fuel edgeId : ℕ) : Option ℕ := do
  let e ← b.edges.get? edgeId
  findArcDescendRight b fuel e.leftChild

/-- Descent loop shared by `find_next_arc_id` (left children) — fueled. -/
def findArcDescendLeft (b : Builder) : ℕ → NodeId → Option ℕ
  | 0, _ => none
  | _ + 1, .arc arcId => some arcId
  | fuel + 1, .edge edgeId => do
    let e ← b.edges.get? edgeId
    findArcDescendLeft b fuel e.leftChild

/-- `Builder::find_next_arc_id`. -/
def findNextArcId (b : Builder) (fuel edgeId : ℕ) : Option ℕ := do
  let e ← b.edges.get? edgeId
  findArcDescendLeft b fuel e.rightChild

/-- Loop of `Builder::find_first_edge_id`. -/
def findFirstEdgeLoop (b : Builder) : ℕ → NodeId → Option ℕ → Option (Option ℕ)
  | 0, _, _ => none
  | _ + 1, .arc _, result => some result
  | fuel + 1, .edge edgeId, _ => do
    let e ← b.edges.get? edgeId
    findFirstEdgeLoop b fuel e.leftChild (some edgeId)

/-- `Builder::find_first_edge_id`; inner `Option` is the source's return
value. -/
def findFirstEdgeId (b : Builder) (fuel : ℕ) : Option (Option ℕ) :=
  match b.root with
  | some root => findFirstEdgeLoop b fuel root none
  | none => some none

/-- Climb loop of `Builder::find_prev_edge_id`. -/
def climbRight (b : Builder) : ℕ → ℕ → Option (Option ℕ)
  | 0, _ => none
  | fuel + 1, edgeId => do
    let e ← b.edges.get? edgeId
    match e.parentId with
    | some parentId => do
      let pe ← b.edges.get? parentId
      if pe.rightChild = NodeId.edge edgeId then some (some parentId)
      else climbRight b fuel parentId
    | none => some none

/-- `Builder::find_prev_edge_id`: the breakpoint immediately left of the
arc (inner `none` ⇒ leftmost arc). -/
def findPrevEdgeId (b : Builder) (fuel arcId : ℕ) : Option (Option ℕ) := do
  let a ← b.arcs.get? arcId
  match a.parentId with
  | some parentId => do
    let pe ← b.edges.get? parentId
    if pe.rightChild = NodeId.arc arcId then some (some parentId)
    else climbRight b fuel parentId
  | none => some none

/-- Climb loop of `Builder::find_next_edge_id`. -/
def climbLeft (b : Builder) : ℕ → ℕ → Option (Option ℕ)
  | 0, _ => none
  | fuel + 1, edgeId => do
    let e ← b.edges.get? edgeId
    match e.parentId with
    | some parentId => do
      let pe ← b.edges.get? parentId
      if pe.leftChild = NodeId.edge edgeId then some (some parentId)
      else climbLeft b fuel parentId
    | none => some none

/-- `Builder::find_next_edge_id`. -/
def findNextEdgeId (b : Builder) (fuel arcId : ℕ) : Option (Option ℕ) := do
  let a ← b.arcs.get? arcId
  match a.parentId with
  | some parentId => do
    let pe ← b.edges.get? parentId
    if pe.leftChild = NodeId.arc arcId then some (some parentId)
    else climbLeft b fuel parentId
  | none => some none

/-- `Builder::get_arc_focus`. -/
def getArcFocus (b : Builder) (arcId : ℕ) : Option Vector2F64 := do
  let a ← b.arcs.get? arcId
  let f ← b.faces.get? a.faceId
  some ⟨f.x, f.y⟩

/-- `Builder::find_split_arc` descent — fueled; the source panics unless
the parabolas intersect twice. -/
def findSplitArc (sqrtQ : ℚ → ℚ) (b : Builder) : ℕ → NodeId → ℕ → Option ℕ
  | 0, _, _ => none
  | _ + 1, .arc arcId, _ => some arcId
  | fuel + 1, .edge edgeId, newFaceId => do
    let face ← b.faces.get? newFaceId
    let leftArcId ← findPrevArcId b (fuel + 1) edgeId
    let rightArcId ← findNextArcId b (fuel + 1) edgeId
    let leftArc ← b.arcs.get? leftArcId
    let rightArc ← b.arcs.get? rightArcId
    let leftFace ← b.faces.get? leftArc.faceId
    let rightFace ← b.faces.get? rightArc.faceId
    match intersectParabolasFromFoci sqrtQ ⟨leftFace.x, leftFace.y⟩
        ⟨rightFace.x, rightFace.y⟩ face.y with
    | .two i1 i2 =>
      let ix := if leftFace.y < rightFace.y then i1.x else i2.x
      let e ← b.edges.get? edgeId
      let nxt := if face.x < ix then e.leftChild else e.rightChild
      findSplitArc sqrtQ b fuel nxt newFaceId
    | _ => none

/-- Circle-event scheduling tail of `Builder::update_remove_event` (the
body run once both neighbouring breakpoints exist).  Note the source
records `Some(arc_id)` — not the id of the event it just pushed — in
`remove_event_id`; the model keeps that behaviour. -/
def updateRemoveEventCircle (sqrtQ : ℚ → ℚ) (fuel : ℕ) (b : Builder) (arcId : ℕ)
    (scanLineY : ℚ) (leftEdgeId rightEdgeId : ℕ) : Option Builder := do
  let leftArcId ← findPrevArcId b fuel leftEdgeId
  let rightArcId ← findNextArcId b fuel rightEdgeId
  let focus ← getArcFocus b arcId
  let leftFocus ← getArcFocus b leftArcId
  let rightFocus ← getArcFocus b rightArcId
  match ← circleThroughPoints sqrtQ leftFocus focus rightFocus with
  | some (center, radius) =>
    let priority := center.y + radius
    if scanLineY ≤ priority ∧ center.y ≤ b.height ∧ focus.y ≤ center.y then do
      let id := b.events.length
      let b := { b with events := b.events ++ [(⟨id, priority, .removeArc arcId⟩ : Event)] }
      let arcs ← listSet? b.arcs arcId (fun a => { a with removeEventId := some arcId })
      some { b with arcs := arcs }
    else some b
  | none => some b

/-- `Builder::update_remove_event`. -/
def updateRemoveEvent (sqrtQ : ℚ → ℚ) (fuel : ℕ) (b : Builder) (arcId : ℕ)
    (scanLineY : ℚ) : Option Builder := do
  let arcs ← listSet? b.arcs arcId (fun a => { a with removeEventId := none })
  let b := { b with arcs := arcs }
  match ← findPrevEdgeId b fuel arcId with
  | none => some b
  | some leftEdgeId =>
    match ← findNextEdgeId b fuel arcId with
    | none => some b
    | some rightEdgeId =>
      updateRemoveEventCircle sqrtQ fuel b arcId scanLineY leftEdgeId rightEdgeId

/-- Second half of `Builder::add_arc` (the tree re-linking from
`create_arc(new)` on; split into its own definition to keep the
compiled code small). -/
def addArcLink (sqrtQ : ℚ → ℚ) (fuel : ℕ) (b : Builder) (faceId splitArcId : ℕ)
    (parentId : Option ℕ) (halfEdgeId twinId : ℕ) : Option Builder := do
  let (newArcId, b) := createArc b faceId
  let splitArcAgain ← b.arcs.get? splitArcId
  let (clonedArcId, b) := createArc b splitArcAgain.faceId
  let (rightEdgeId, b) := createEdge b halfEdgeId (NodeId.arc newArcId) (NodeId.arc clonedArcId)
  let arcs ← listSet? b.arcs newArcId (fun a => { a with parentId := some rightEdgeId })
  let arcs ← listSet? arcs clonedArcId (fun a => { a with parentId := some rightEdgeId })
  let b := { b with arcs := arcs }
  let (leftEdgeId, b) := createEdge b twinId (NodeId.arc splitArcId) (NodeId.edge rightEdgeId)
  let arcs ← listSet? b.arcs splitArcId (fun a => { a with parentId := some leftEdgeId })
  let b := { b with arcs := arcs }
  let edges ← listSet? b.edges rightEdgeId (fun e => { e with parentId := some leftEdgeId })
  let edges ← listSet? edges leftEdgeId (fun e => { e with parentId := parentId })
  let b := { b with edges := edges }
  let b := if parentId = none then { b with root := some (NodeId.edge leftEdgeId) } else b
  let face ← b.faces.get? faceId
  let scanLineY := face.y
  let b ← updateRemoveEvent sqrtQ fuel b splitArcId scanLineY
  updateRemoveEvent sqrtQ fuel b clonedArcId scanLineY

/-- `Builder::add_arc`. -/
def addArc (sqrtQ : ℚ → ℚ) (fuel : ℕ) (b : Builder) (faceId : ℕ) : Option Builder :=
  match b.root with
  | none =>
    let (arcId, b) := createArc b faceId
    some { b with root := some (NodeId.arc arcId) }
  | some nodeId => do
    let splitArcId ← findSplitArc sqrtQ b fuel nodeId faceId
    let splitArc ← b.arcs.get? splitArcId
    let splitFaceId := splitArc.faceId
    let (pair, b) ← createHalfEdgePair b faceId splitFaceId
    let (halfEdgeId, twinId) := pair
    let faces ← listSet? b.faces faceId
      (fun f => { f with halfEdgeId := some (f.halfEdgeId.getD halfEdgeId) })
    let faces ← listSet? faces splitFaceId
      (fun f => { f with halfEdgeId := some (f.halfEdgeId.getD twinId) })
    let b := { b with faces := faces }
    addArcLink sqrtQ fuel b faceId splitArcId splitArc.parentId halfEdgeId twinId

/-- `Builder::replace_child`. -/
def replaceChild (b : Builder) (parentEdgeId : ℕ) (oldChild newChild : NodeId) :
    Option Builder := do
  let b ← match newChild with
    | NodeId.arc arcId => do
      let arcs ← listSet? b.arcs arcId (fun a => { a with parentId := some parentEdgeId })
      pure { b with arcs := arcs }
    | NodeId.edge edgeId => do
      let edges ← listSet? b.edges edgeId (fun e => { e with parentId := some parentEdgeId })
      pure { b with edges := edges }
  let pe ← b.edges.get? parentEdgeId
  if pe.leftChild = oldChild then do
    let edges ← listSet? b.edges parentEdgeId (fun e => { e with leftChild := newChild })
    some { b with edges := edges }
  else if pe.rightChild = oldChild then do
    let edges ← listSet? b.edges parentEdgeId (fun e => { e with rightChild := newChild })
    some { b with edges := edges }
  else none

/-- Tree-surgery tail of `Builder::remove_arc` (split into its own
definition to keep the compiled code small). -/
def removeArcTree (b : Builder) (arcId leftEdgeId rightEdgeId leftArcId rightArcId
    downOutId : ℕ) : Option Builder := do
  let le ← b.edges.get? leftEdgeId
  if le.rightChild = NodeId.arc arcId then do
    let grandParentId ← le.parentId
    let b ← replaceChild b grandParentId (NodeId.edge leftEdgeId) (NodeId.arc leftArcId)
    let edges ← listSet? b.edges rightEdgeId (fun e => { e with halfEdgeId := downOutId })
    some { b with edges := edges }
  else do
    let re ← b.edges.get? rightEdgeId
    let grandParentId ← re.parentId
    let b ← replaceChild b grandParentId (NodeId.edge rightEdgeId) (NodeId.arc rightArcId)
    let edges ← listSet? b.edges leftEdgeId (fun e => { e with halfEdgeId := downOutId })
    some { b with edges := edges }

/-- DCEL wiring middle of `Builder::remove_arc` (from the half-edge
lookups through the three `connect_half_edges` calls). -/
def removeArcWire (b : Builder) (arcId leftEdgeId rightEdgeId leftArcId rightArcId
    leftFaceId rightFaceId intersectionId : ℕ) : Option Builder := do
  let le ← b.edges.get? leftEdgeId
  let leftInId := le.halfEdgeId
  let leftInHe ← b.halfEdges.get? leftInId
  let leftOutId ← leftInHe.twinId
  let re ← b.edges.get? rightEdgeId
  let rightOutId := re.halfEdgeId
  let rightOutHe ← b.halfEdges.get? rightOutId
  let rightInId ← rightOutHe.twinId
  let (pair, b) ← createHalfEdgePair b leftFaceId rightFaceId
  let (downOutId, downInId) := pair
  let hes ← listSet? b.halfEdges downOutId (fun he => { he with startId := some intersectionId })
  let b ← connectHalfEdges { b with halfEdges := hes } leftInId downOutId
  let hes ← listSet? b.halfEdges leftOutId (fun he => { he with startId := some intersectionId })
  let b ← connectHalfEdges { b with halfEdges := hes } rightInId leftOutId
  let hes ← listSet? b.halfEdges rightOutId (fun he => { he with startId := some intersectionId })
  let b ← connectHalfEdges { b with halfEdges := hes } downInId rightOutId
  removeArcTree b arcId leftEdgeId rightEdgeId leftArcId rightArcId downOutId

/-- Circumcenter-vertex step of `Builder::remove_arc`. -/
def removeArcVertex (sqrtQ : ℚ → ℚ) (b : Builder) (arcId leftEdgeId rightEdgeId
    leftArcId rightArcId leftFaceId rightFaceId : ℕ) : Option Builder := do
  let focus ← getArcFocus b arcId
  let leftFocus ← getArcFocus b leftArcId
  let rightFocus ← getArcFocus b rightArcId
  let cr ← (← circleThroughPoints sqrtQ leftFocus focus rightFocus)
  let center := cr.1
  let (intersectionId, b) := createVertex b center.x center.y
  removeArcWire b arcId leftEdgeId rightEdgeId leftArcId rightArcId
    leftFaceId rightFaceId intersectionId

/-- `Builder::remove_arc`. -/
def removeArc (sqrtQ : ℚ → ℚ) (fuel : ℕ) (b : Builder) (arcId : ℕ) : Option Builder := do
  let leftEdgeId ← (← findPrevEdgeId b fuel arcId)
  let rightEdgeId ← (← findNextEdgeId b fuel arcId)
  let leftArcId ← findPrevArcId b fuel leftEdgeId
  let leftArc ← b.arcs.get? leftArcId
  let leftFaceId := leftArc.faceId
  let rightArcId ← findNextArcId b fuel rightEdgeId
  let rightArc ← b.arcs.get? rightArcId
  let rightFaceId := rightArc.faceId
  removeArcVertex sqrtQ b arcId leftEdgeId rightEdgeId leftArcId rightArcId
    leftFaceId rightFaceId

/-- `Builder::check_remove_arc`: lazy invalidation on pop. -/
def checkRemoveArc (sqrtQ : ℚ → ℚ) (fuel : ℕ) (b : Builder) (arcId eventId : ℕ) :
    Option Builder := do
  let a ← b.arcs.get? arcId
  if a.removeEventId = some eventId then removeArc sqrtQ fuel b arcId else some b

/-- `Builder::create_events`: one `AddArc` event per face, pushed with
priority `face.x` (the site's x coordinate — see
`create_events_priority_is_site_x`). -/
def createEvents (b : Builder) : Builder :=
  b.faces.foldl
    (fun b face =>
      { b with events := b.events ++ [(⟨b.events.length, face.x, .addArc face.id⟩ : Event)] })
    b

/-- `Builder::handle_events` — fueled pop/dispatch loop. -/
def handleEvents (sqrtQ : ℚ → ℚ) (fuel : ℕ) : ℕ → Builder → Option Builder
  | 0, _ => none
  | n + 1, b =>
    match popMax b.events with
    | none => some b
    | some (event, rest) =>
      let b := { b with events := rest }
      match event.kind with
      | .addArc faceId => do
        handleEvents sqrtQ fuel n (← addArc sqrtQ fuel b faceId)
      | .removeArc arcId => do
        handleEvents sqrtQ fuel n (← checkRemoveArc sqrtQ fuel b arcId event.id)

/-- `Builder::calc_half_edge_start` (panic when the ray misses the
bounds modelled by `none`). -/
def calcHalfEdgeStart (b : Builder) (bounds : BoundingBox) (faceId twinFaceId : ℕ) :
    Option (ℕ × Builder) := do
  let face ← b.faces.get? faceId
  let twinFace ← b.faces.get? twinFaceId
  let pos : Vector2F64 := ⟨(face.x + twinFace.x) / 2, (face.y + twinFace.y) / 2⟩
  let sub : Vector2F64 := ⟨twinFace.x - face.x, twinFace.y - face.y⟩
  let dir0 : Vector2F64 := ⟨face.y - twinFace.y, twinFace.x - face.x⟩
  let dir := if !isClockwise sub dir0 then (⟨-dir0.x, -dir0.y⟩ : Vector2F64) else dir0
  match rayWithBoundingBox pos dir bounds with
  | some v => some (createVertex b v.x v.y)
  | none => none

/-- `Builder::complete_edge`. -/
def completeEdge (b : Builder) (bounds : BoundingBox) (edgeId : ℕ) : Option Builder := do
  let e ← b.edges.get? edgeId
  let halfEdgeId := e.halfEdgeId
  let he ← b.halfEdges.get? halfEdgeId
  let faceId := he.faceId
  let twinId ← he.twinId
  let twinHe ← b.halfEdges.get? twinId
  let twinFaceId := twinHe.faceId
  let b ← match he.startId with
    | none => do
      let (vertexId, b) ← calcHalfEdgeStart b bounds faceId twinFaceId
      let hes ← listSet? b.halfEdges halfEdgeId (fun h => { h with startId := some vertexId })
      pure { b with halfEdges := hes }
    | some _ => pure b
  let faces ← listSet? b.faces faceId (fun f => { f with endId := some halfEdgeId })
  let faces ← listSet? faces twinFaceId (fun f => { f with startId := some twinId })
  some { b with faces := faces }

/-- Loop of `Builder::complete_edges` — fueled. -/
def completeEdgesLoop (bounds : BoundingBox) (fuel : ℕ) :
    ℕ → Option ℕ → Builder → Option Builder
  | _, none, b => some b
  | 0, some _, _ => none
  | n + 1, some edgeId, b => do
    let b ← completeEdge b bounds edgeId
    let nextArcId ← findNextArcId b fuel edgeId
    let next ← findNextEdgeId b fuel nextArcId
    completeEdgesLoop bounds fuel n next b

/-- `Builder::complete_edges`. -/
def completeEdges (fuel : ℕ) (b : Builder) : Option Builder := do
  let bounds := BoundingBox.new 0 b.width 0 b.height
  let first ← findFirstEdgeId b fuel
  completeEdgesLoop bounds fuel fuel first b

/-- One iteration decision of the `complete_face_bounds` walk: `none` =
the source's `panic!` (current vertex not on the rectangle), `some none`
= `break`, `some (some (x, y))` = continue toward that corner. -/
def faceBoundsStep (width height endX endY curX curY : ℚ) : Option (Option (ℚ × ℚ)) :=
  if curY = 0 ∧ curX ≠ width then
    if endY = 0 ∧ curX ≤ endX then some none else some (some (width, 0))
  else if curX = width ∧ curY ≠ height then
    if endX = width ∧ curY ≤ endY then some none else some (some (width, height))
  else if curY = height ∧ curX ≠ 0 then
    if endY = height ∧ endX ≤ curX then some none else some (some (0, height))
  else if curX = 0 ∧ curY ≠ 0 then
    if endX = 0 ∧ endY ≤ curY then some none else some (some (0, 0))
  else none

/-- Loop of `Builder::complete_face_bounds` — fueled. -/
def completeFaceBoundsLoop (faceId endHalfEdgeId : ℕ) (endX endY : ℚ) :
    ℕ → Builder → ℕ → ℕ → ℚ → ℚ → Option Builder
  | 0, _, _, _, _, _ => none
  | n + 1, b, curHalfEdgeId, curVertexId, curX, curY => do
    match ← faceBoundsStep b.width b.height endX endY curX curY with
    | none =>
      let (nextHalfEdgeId, b) := createHalfEdge b faceId (some curVertexId)
      let b ← connectHalfEdges b curHalfEdgeId nextHalfEdgeId
      connectHalfEdges b nextHalfEdgeId endHalfEdgeId
    | some (nextX, nextY) => do
      let (nextHalfEdgeId, b) := createHalfEdge b faceId (some curVertexId)
      let b ← connectHalfEdges b curHalfEdgeId nextHalfEdgeId
      let (newVertexId, b) := createVertex b nextX nextY
      completeFaceBoundsLoop faceId endHalfEdgeId endX endY n b nextHalfEdgeId newVertexId nextX nextY

/-- `Builder::complete_face_bounds`. -/
def completeFaceBounds (fuel : ℕ) (b : Builder) (faceId : ℕ) : Option Builder := do
  let f ← b.faces.get? faceId
  let curHalfEdgeId ← f.startId
  let che ← b.halfEdges.get? curHalfEdgeId
  let twinId ← che.twinId
  let twinHe ← b.halfEdges.get? twinId
  let curVertexId ← twinHe.startId
  let cv ← b.vertices.get? curVertexId
  let endHalfEdgeId ← f.endId
  let endVertexId ← che.startId
  let ev ← b.vertices.get? endVertexId
  completeFaceBoundsLoop faceId endHalfEdgeId ev.x ev.y fuel b curHalfEdgeId curVertexId cv.x cv.y

/-- Connection tail of the one-site branch of `Builder::bound`. -/
def boundSingleArcConnect (b : Builder) (topId rightId bottomId leftId : ℕ) :
    Option Builder := do
  let b ← connectHalfEdges b topId rightId
  let b ← connectHalfEdges b rightId bottomId
  let b ← connectHalfEdges b bottomId leftId
  let b ← connectHalfEdges b leftId topId
  let faces ← listSet? b.faces 0 (fun f => { f with halfEdgeId := some topId })
  some { b with faces := faces }

/-- One-site branch of `Builder::bound`: four corner vertices and four
untwinned half-edges cycled top → right → bottom → left → top. -/
def boundSingleArc (b : Builder) (arcId : ℕ) : Option Builder := do
  let a ← b.arcs.get? arcId
  let faceId := a.faceId
  let (topLeftId, b) := createVertex b 0 0
  let (topRightId, b) := createVertex b b.width 0
  let (bottomRightId, b) := createVertex b b.width b.height
  let (bottomLeftId, b) := createVertex b 0 b.height
  let (topId, b) := createHalfEdge b faceId (some topLeftId)
  let (rightId, b) := createHalfEdge b faceId (some topRightId)
  let (bottomId, b) := createHalfEdge b faceId (some bottomRightId)
  let (leftId, b) := createHalfEdge b faceId (some bottomLeftId)
  boundSingleArcConnect b topId rightId bottomId leftId

/-- `Builder::bound`. -/
def boundOp (fuel : ℕ) (b : Builder) : Option Builder :=
  match b.root with
  | none => some b
  | some (NodeId.arc arcId) => boundSingleArc b arcId
  | some (NodeId.edge _) =>
    (List.range b.faces.length).foldlM
      (fun b id => do
        let f ← b.faces.get? id
        if !(hasCompleteBounds f) then completeFaceBounds fuel b id else some b)
      b

/-- `Builder::build`: the full pipeline, returning the finalized
diagram.  (The source also clears the builder's scratch state; the
returned `Diagram` is what the claims are about.) -/
def build (sqrtQ : ℚ → ℚ) (fuel : ℕ) (b : Builder) : Option Diagram := do
  let b := createEvents b
  let b ← handleEvents sqrtQ fuel fuel b
  let b ← completeEdges fuel b
  let b ← boundOp fuel b
  let halfEdges ← b.halfEdges.mapM intoHalfEdge
  let faces ← b.faces.mapM intoFace
  some ⟨b.width, b.height, b.vertices, halfEdges, faces⟩

/-! ## voronoi.rs: Diagram::create_triangles -/

/-- The vertex-buffer part of `Diagram::create_triangles`: both
coordinates are divided by `scale = width / 2` (the `as f32` casts are
modelled as the identity). -/
def createTrianglesVertices (d : Diagram) : List ℚ :=
  let scale := d.width / 2
  ((d.faces.map (fun f => [f.x / scale - 1, f.y / scale - 1, 0])).flatten)
    ++ ((d.vertices.map (fun v => [v.x / scale - 1, v.y / scale - 1, 0])).flatten)

/-- Ring walk of the index part of `Diagram::create_triangles` —
fueled. -/
def faceIndicesLoop (d : Diagram) (faceStartId faceIdx offset : ℕ) :
    ℕ → ℕ → List ℕ → Option (List ℕ)
  | 0, _, _ => none
  | n + 1, curId, acc => do
    let cur ← d.halfEdges.get? curId
    let nextId := cur.nextId
    if nextId = faceStartId then do
      let startHe ← d.halfEdges.get? faceStartId
      some (acc ++ [faceIdx, offset + cur.startId, offset + startHe.startId])
    else do
      let nextHe ← d.halfEdges.get? nextId
      faceIndicesLoop d faceStartId faceIdx offset n nextId
        (acc ++ [faceIdx, offset + cur.startId, offset + nextHe.startId])

/-- The index-buffer part of `Diagram::create_triangles` (`u32` casts
modelled as the identity on `ℕ`). -/
def createTrianglesIndices (d : Diagram) (fuel : ℕ) : Option (List ℕ) :=
  (List.range d.faces.length).foldlM
    (fun acc id => do
      let f ← d.faces.get? id
      let r ← faceIndicesLoop d f.startId id d.faces.length fuel f.startId []
      some (acc ++ r))
    []

/-- `Diagram::create_triangles`. -/
def createTriangles (d : Diagram) (fuel : ℕ) : Option (List ℚ × List ℕ) := do
  let indices ← createTrianglesIndices d fuel
  some (createTrianglesVertices d, indices)

/-! ## Claim theorems -/

/-- C1: the claim says `Builder::build`'s event seeding pushes every
site event with priority equal to the site's y coordinate.  The code
pushes `priority: face.x` instead: seeding a builder holding the single
site `(100, 900)` yields one `AddArc` event whose priority is `100`
(the site's x), not `900` (the site's y).  The rest of the sweep is
y-based (`find_split_arc` uses the site's y as directrix and
`update_remove_event` compares priorities with `scan_line_y`), so the
claim reflects the intent and `face.x` is a slip in the code. -/
theorem create_events_uses_x_not_y :
    (createEvents (addSite (Builder.new 1000 1000) 100 900)).events
      = [(⟨0, 100, .addArc 0⟩ : Event)] ∧
    (addSite (Builder.new 1000 1000) 100 900).faces.map (fun f => (f.x, f.y))
      = [(100, 900)] ∧
    (100 : ℚ) ≠ 900 := by
  decide

/-- Beachline state used to exercise `update_remove_event`: three arcs
with foci `(0,1)`, `(1,0)`, `(2,1)` (faces 0/1/2), breakpoint tree
`edge0(arc0, edge1(arc1, arc2))`, empty event queue. -/
def circleBuilder : Builder :=
  { width := 1000, height := 1000, vertices := [], halfEdges := [],
    faces := [⟨0, 0, 1, none, none, none⟩, ⟨1, 1, 0, none, none, none⟩,
              ⟨2, 2, 1, none, none, none⟩],
    events := [],
    edges := [⟨0, 0, none, NodeId.arc 0, NodeId.edge 1⟩,
              ⟨1, 0, some 0, NodeId.arc 1, NodeId.arc 2⟩],
    arcs := [⟨0, 0, none, some 0⟩, ⟨1, 1, none, some 1⟩, ⟨2, 2, none, some 1⟩],
    root := some (NodeId.edge 0) }

/-- C2: the claim says the id recorded in `pending_circle_event_id`
equals the id of the pushed event, so the later validity check
succeeds.  Scheduling a circle event for arc 1 of `circleBuilder`
(circumcircle center `(1,1)`, radius `1`, priority `2`) pushes the
event with id `0` (`events.len()`), yet records `some 1` — the *arc*
id — on the arc; popping that event (id `0`) then fails the
`check_remove_arc` comparison and leaves the builder unchanged, so the
arc is never removed.  The spec itself (§9a) flags this source
behaviour as a bug. -/
theorem update_remove_event_records_arc_id :
    ((updateRemoveEvent ratSqrt 10 circleBuilder 1 0).map
      (fun b => (b.events.map Event.id, b.arcs.map ArcNode.removeEventId)))
      = some ([0], [none, some 1, none]) ∧
    ((updateRemoveEvent ratSqrt 10 circleBuilder 1 0).bind
      (fun b => checkRemoveArc ratSqrt 10 b 1 0))
      = updateRemoveEvent ratSqrt 10 circleBuilder 1 0 ∧
    (1 : ℕ) ≠ 0 := by
  decide

/-- C3 counterexample: two queued events with equal priority `5` and
ids `0 < 1`; the max-heap pop returns the event with id `1`, so the
event with the smaller id is NOT popped first as the claim states. -/
theorem popMax_smaller_id_counterexample :
    (popMax [(⟨0, 5, .addArc 0⟩ : Event), (⟨1, 5, .addArc 1⟩ : Event)]).map
      (fun p => p.1.id) = some 1 ∧
    (⟨0, 5, .addArc 0⟩ : Event).priority = (⟨1, 5, .addArc 1⟩ : Event).priority ∧
    (⟨0, 5, .addArc 0⟩ : Event).id < (⟨1, 5, .addArc 1⟩ : Event).id := by
  decide

/-- C3 (amended): for two events with equal priority, `Event::cmp`
orders the smaller id below the larger one, so the max-heap pops the
event with the LARGER id first. -/
theorem popMax_equal_priority_larger_id_first (e1 e2 : Event)
    (hp : e1.priority = e2.priority) (hid : e1.id < e2.id) :
    eventCmp e1 e2 = .lt ∧ popMax [e1, e2] = some (e2, [e1]) := by
  have hc : eventCmp e1 e2 = .lt := by
    simp [eventCmp, hp, lt_irrefl, Nat.compare_eq_lt.mpr hid]
  exact ⟨hc, by simp [popMax, hc]⟩

/-- C3 witness: the amended tiebreak at the concrete equal-priority
events with ids 2 and 3. -/
theorem popMax_equal_priority_witness :
    eventCmp ⟨2, 7, .addArc 0⟩ ⟨3, 7, .removeArc 1⟩ = .lt ∧
    popMax [(⟨2, 7, .addArc 0⟩ : Event), (⟨3, 7, .removeArc 1⟩ : Event)]
      = some (⟨3, 7, .removeArc 1⟩, [⟨2, 7, .addArc 0⟩]) :=
  popMax_equal_priority_larger_id_first _ _ rfl (by decide)

/-- The vertex buffer as claim C4 states it (follows the spec's words:
x normalized by `width/2`, y by `height/2`), for comparison with the
buffer `create_triangles` actually builds. -/
def claimedVertexBuffer (d : Diagram) : List ℚ :=
  ((d.faces.map (fun f => [f.x / (d.width / 2) - 1, f.y / (d.height / 2) - 1, 0])).flatten)
    ++ ((d.vertices.map (fun v => [v.x / (d.width / 2) - 1, v.y / (d.height / 2) - 1, 0])).flatten)

/-- A well-formed non-square diagram (width 2, height 4) separating the
two normalizations: one face at `(1,2)` and one vertex at `(0,4)`. -/
def tallDiagram : Diagram :=
  ⟨2, 4, [⟨0, 0, 4⟩], [⟨0, 0, 0, none, 0, 0⟩], [⟨0, 1, 2, 0⟩]⟩

/-- C4 counterexample: on `tallDiagram` the code divides every y by
`width/2 = 1` and produces `[0, 1, 0, -1, 3, 0]`, while the claimed
normalization (y divided by `height/2 = 2`) gives `[0, 0, 0, -1, 1, 0]`;
the buffers differ. -/
theorem createTriangles_height_counterexample :
    (createTriangles tallDiagram 10).map Prod.fst = some [0, 1, 0, -1, 3, 0] ∧
    claimedVertexBuffer tallDiagram = [0, 0, 0, -1, 1, 0] ∧
    ([0, 1, 0, -1, 3, 0] : List ℚ) ≠ [0, 0, 0, -1, 1, 0] := by
  decide

/-- C4 (amended): whenever `create_triangles` succeeds, its vertex
buffer is the face centers followed by the boundary vertices, each as
`(x/(w/2)−1, y/(w/2)−1, 0)` — both coordinates are divided by
`width/2` (the single `scale` of the source), the y coordinate too. -/
theorem createTriangles_vertexBuffer (d : Diagram) (fuel : ℕ) (vb : List ℚ) (ib : List ℕ)
    (h : createTriangles d fuel = some (vb, ib)) :
    vb = ((d.faces.map (fun f => [f.x / (d.width / 2) - 1, f.y / (d.width / 2) - 1, 0])).flatten)
      ++ ((d.vertices.map (fun v => [v.x / (d.width / 2) - 1, v.y / (d.width / 2) - 1, 0])).flatten) := by
  cases hI : createTrianglesIndices d fuel with
  | none => simp [createTriangles, hI] at h
  | some i =>
    simp [createTriangles, hI] at h
    rw [← h.1]
    rfl

/-- C4 witness: the amended normalization evaluated on `tallDiagram`. -/
theorem createTriangles_vertexBuffer_witness :
    ([0, 1, 0, -1, 3, 0] : List ℚ)
      = ((tallDiagram.faces.map (fun f =>
            [f.x / (tallDiagram.width / 2) - 1, f.y / (tallDiagram.width / 2) - 1, 0])).flatten)
        ++ ((tallDiagram.vertices.map (fun v =>
            [v.x / (tallDiagram.width / 2) - 1, v.y / (tallDiagram.width / 2) - 1, 0])).flatten) :=
  createTriangles_vertexBuffer tallDiagram 10 [0, 1, 0, -1, 3, 0] [0, 1, 1] (by decide)

/-- C5: building a 1000×1000 box with the single site `(500, 500)`
yields exactly the claimed diagram: the four corner vertices
`(0,0),(1000,0),(1000,1000),(0,1000)`, four untwinned half-edges
connected into the single cycle top → right → bottom → left → top, and
one face with `start_id = 0`.  The result holds for every model of
`f64::sqrt` — this run never takes a square root. -/
theorem build_single_site (sqrtQ : ℚ → ℚ) :
    build sqrtQ 50 (addSite (Builder.new 1000 1000) 500 500) =
      some ⟨1000, 1000,
        [⟨0, 0, 0⟩, ⟨1, 1000, 0⟩, ⟨2, 1000, 1000⟩, ⟨3, 0, 1000⟩],
        [⟨0, 0, 0, none, 3, 1⟩, ⟨1, 0, 1, none, 0, 2⟩,
         ⟨2, 0, 2, none, 1, 3⟩, ⟨3, 0, 3, none, 2, 0⟩],
        [⟨0, 500, 500, 0⟩]⟩ := by
  rfl

/-- C5 witness: the single-site build at the canonical square-root
model. -/
theorem build_single_site_witness :
    build ratSqrt 50 (addSite (Builder.new 1000 1000) 500 500) =
      some ⟨1000, 1000,
        [⟨0, 0, 0⟩, ⟨1, 1000, 0⟩, ⟨2, 1000, 1000⟩, ⟨3, 0, 1000⟩],
        [⟨0, 0, 0, none, 3, 1⟩, ⟨1, 0, 1, none, 0, 2⟩,
         ⟨2, 0, 2, none, 1, 3⟩, ⟨3, 0, 3, none, 2, 0⟩],
        [⟨0, 500, 500, 0⟩]⟩ :=
  build_single_site ratSqrt

/-- `solve` when the discriminant is positive: the two candidate roots,
sorted. -/
lemma solveQuadratic_of_pos (s : ℚ → ℚ) (a b c : ℚ) (h1 : 0 < b * b - 4 * a * c) :
    solveQuadratic s a b c =
      if (-b - s (b * b - 4 * a * c)) / (2 * a) < (-b + s (b * b - 4 * a * c)) / (2 * a)
      then .two ((-b - s (b * b - 4 * a * c)) / (2 * a)) ((-b + s (b * b - 4 * a * c)) / (2 * a))
      else .two ((-b + s (b * b - 4 * a * c)) / (2 * a)) ((-b - s (b * b - 4 * a * c)) / (2 * a)) := by
  simp [solveQuadratic, h1]

/-- `solve` when the discriminant is negative. -/
lemma solveQuadratic_of_neg (s : ℚ → ℚ) (a b c : ℚ) (h1 : b * b - 4 * a * c < 0) :
    solveQuadratic s a b c = .none := by
  have h2 : ¬ 0 < b * b - 4 * a * c := by linarith
  simp [solveQuadratic, h1, h2]

/-- `solve` when the discriminant is zero. -/
lemma solveQuadratic_of_zero (s : ℚ → ℚ) (a b c : ℚ) (h1 : b * b - 4 * a * c = 0) :
    solveQuadratic s a b c = .one (-b / (2 * a)) := by
  simp [solveQuadratic, h1]

/-- C6: for `a ≠ 0` and an exact model of `f64::sqrt` on the positive
discriminant (the only case in which the source takes a square root),
`solve` returns `Two(x1,x2)` with `x1 < x2` exactly when
`Δ = b² − 4ac > 0`, `One` exactly when `Δ = 0`, and `None` exactly when
`Δ < 0`; and the three concrete examples of the spec evaluate as
claimed. -/
theorem solveQuadratic_spec :
    (∀ (s : ℚ → ℚ) (a b c : ℚ), a ≠ 0 →
      (0 < b * b - 4 * a * c →
        0 ≤ s (b * b - 4 * a * c) ∧
        s (b * b - 4 * a * c) * s (b * b - 4 * a * c) = b * b - 4 * a * c) →
      ((0 < b * b - 4 * a * c) ↔
        (∃ x1 x2, solveQuadratic s a b c = .two x1 x2 ∧ x1 < x2)) ∧
      ((b * b - 4 * a * c = 0) ↔ (∃ x, solveQuadratic s a b c = .one x)) ∧
      ((b * b - 4 * a * c < 0) ↔ solveQuadratic s a b c = .none)) ∧
    solveQuadratic ratSqrt 2 (-6) 4 = .two 1 2 ∧
    solveQuadratic ratSqrt 2 (-4) 2 = .one 1 ∧
    solveQuadratic ratSqrt 1 0 1 = .none := by
  refine ⟨?_, by decide, by decide, by decide⟩
  intro s a b c ha hs
  rcases lt_trichotomy (b * b - 4 * a * c) 0 with hneg | hzero | hpos
  · have hres := solveQuadratic_of_neg s a b c hneg
    refine ⟨⟨fun h => absurd h (by linarith), ?_⟩,
            ⟨fun h => absurd h (by linarith), ?_⟩,
            ⟨fun _ => hres, fun _ => hneg⟩⟩
    · rintro ⟨x1, x2, hx, -⟩; rw [hres] at hx; exact absurd hx (by simp)
    · rintro ⟨x, hx⟩; rw [hres] at hx; exact absurd hx (by simp)
  · have hres := solveQuadratic_of_zero s a b c hzero
    refine ⟨⟨fun h => absurd h (by linarith), ?_⟩,
            ⟨fun _ => ⟨-b / (2 * a), hres⟩, fun _ => hzero⟩,
            ⟨fun h => absurd h (by linarith), ?_⟩⟩
    · rintro ⟨x1, x2, hx, -⟩; rw [hres] at hx; exact absurd hx (by simp)
    · intro h; rw [hres] at h; exact absurd h (by simp)
  · obtain ⟨h0, hsq⟩ := hs hpos
    have hSne : s (b * b - 4 * a * c) ≠ 0 := by
      intro h; rw [h] at hsq; simp at hsq; linarith
    have hs0 : 0 < s (b * b - 4 * a * c) := lt_of_le_of_ne h0 (Ne.symm hSne)
    have h2a : (2 : ℚ) * a ≠ 0 := mul_ne_zero two_ne_zero ha
    have hne : (-b - s (b * b - 4 * a * c)) / (2 * a)
        ≠ (-b + s (b * b - 4 * a * c)) / (2 * a) := by
      intro heq
      have := (div_left_inj' h2a).mp heq
      exact hSne (by linarith)
    have hres := solveQuadratic_of_pos s a b c hpos
    refine ⟨⟨fun _ => ?_, fun _ => hpos⟩,
            ⟨fun h => absurd h (by linarith), ?_⟩,
            ⟨fun h => absurd h (by linarith), ?_⟩⟩
    · by_cases hlt : (-b - s (b * b - 4 * a * c)) / (2 * a)
          < (-b + s (b * b - 4 * a * c)) / (2 * a)
      · exact ⟨_, _, by rw [hres, if_pos hlt], hlt⟩
      · exact ⟨_, _, by rw [hres, if_neg hlt],
          lt_of_le_of_ne (not_lt.mp hlt) (Ne.symm hne)⟩
    · rintro ⟨x, hx⟩; rw [hres] at hx
      revert hx; split <;> intro hx <;> exact absurd hx (by simp)
    · intro h; rw [hres] at h
      revert h; split <;> intro h <;> exact absurd h (by simp)

/-- C6 witness: the trichotomy at the concrete input `(1, 0, 1)` of the
spec (negative discriminant), hypotheses discharged. -/
theorem solveQuadratic_spec_witness :
    ((0 * 0 - 4 * 1 * 1 : ℚ) < 0) ↔ solveQuadratic ratSqrt 1 0 1 = QuadSolution.none :=
  (solveQuadratic_spec.1 ratSqrt 1 0 1 (by norm_num)
    (fun h => absurd h (by norm_num))).2.2

/-- C7: the linear solver returns `Ok` of the empty vector for every
matrix with 0 columns, and fails with `NoUniqueSolution` before any
elimination — the matrix comes back unchanged — whenever
`rows + 1 < cols`. -/
theorem solveFromMatrix_trivial_and_underdetermined (m : MatrixVar) :
    (m.cols = 0 → solveFromMatrix m = (.ok [], m)) ∧
    (m.rows + 1 < m.cols → solveFromMatrix m = (.error .noUniqueSolution, m)) := by
  constructor
  · intro h
    simp [solveFromMatrix, solveFromRowMatrixView, RowMatrixView.fromMatrix,
          RowMatrixView.rowsN, RowMatrixView.colsN, h]
  · intro h
    have h0 : ¬ m.cols = 0 := by omega
    simp [solveFromMatrix, solveFromRowMatrixView, RowMatrixView.fromMatrix,
          RowMatrixView.rowsN, RowMatrixView.colsN, h, h0]

/-- C7 witness: the two branches at the concrete matrices of the
source's tests (`MatrixVarF64::new(0,0)` and `new(2,4)`). -/
theorem solveFromMatrix_trivial_and_underdetermined_witness :
    solveFromMatrix (MatrixVar.new 0 0) = (.ok [], MatrixVar.new 0 0) ∧
    solveFromMatrix (MatrixVar.new 2 4) = (.error .noUniqueSolution, MatrixVar.new 2 4) :=
  ⟨(solveFromMatrix_trivial_and_underdetermined (MatrixVar.new 0 0)).1 rfl,
   (solveFromMatrix_trivial_and_underdetermined (MatrixVar.new 2 4)).2 (by decide)⟩

/-- C8: `ray_with_bounding_box` returns the result of the first of the
four ray/segment tests that succeeds, trying the sides in order top
(p0→p1), right (p1→p2), bottom (p2→p3), left (p3→p0), and returns
`None` exactly when all four tests fail. -/
theorem rayWithBoundingBox_first_hit (p d : Vector2F64) (bb : BoundingBox) :
    (∀ v, rayWithSegment p d bb.p0 bb.p1 = some v → rayWithBoundingBox p d bb = some v) ∧
    (rayWithSegment p d bb.p0 bb.p1 = none →
      ∀ v, rayWithSegment p d bb.p1 bb.p2 = some v → rayWithBoundingBox p d bb = some v) ∧
    (rayWithSegment p d bb.p0 bb.p1 = none → rayWithSegment p d bb.p1 bb.p2 = none →
      ∀ v, rayWithSegment p d bb.p2 bb.p3 = some v → rayWithBoundingBox p d bb = some v) ∧
    (rayWithSegment p d bb.p0 bb.p1 = none → rayWithSegment p d bb.p1 bb.p2 = none →
      rayWithSegment p d bb.p2 bb.p3 = none →
      rayWithBoundingBox p d bb = rayWithSegment p d bb.p3 bb.p0) ∧
    (rayWithBoundingBox p d bb = none ↔
      rayWithSegment p d bb.p0 bb.p1 = none ∧ rayWithSegment p d bb.p1 bb.p2 = none ∧
      rayWithSegment p d bb.p2 bb.p3 = none ∧ rayWithSegment p d bb.p3 bb.p0 = none) := by
  unfold rayWithBoundingBox
  cases h1 : rayWithSegment p d bb.p0 bb.p1 <;>
    cases h2 : rayWithSegment p d bb.p1 bb.p2 <;>
      cases h3 : rayWithSegment p d bb.p2 bb.p3 <;>
        cases h4 : rayWithSegment p d bb.p3 bb.p0 <;>
          simp [h1, h2, h3, h4, Option.orElse]

/-- C8 witness: the ray from `(5,5)` pointing down hits the top side of
the box `[0,10]×[0,10]` first, at `(5,0)`. -/
theorem rayWithBoundingBox_first_hit_witness :
    rayWithBoundingBox ⟨5, 5⟩ ⟨0, -1⟩ (BoundingBox.new 0 10 0 10) = some ⟨5, 0⟩ :=
  (rayWithBoundingBox_first_hit ⟨5, 5⟩ ⟨0, -1⟩ (BoundingBox.new 0 10 0 10)).1
    ⟨5, 0⟩ (by decide)

/-- C9: `Diagram::create_triangles` is pure and deterministic.  In the
embedding the function takes the diagram by value and returns only
fresh buffers — exactly the shape of the Rust signature
(`&self`, owned `Vec`s out, no interior mutability) — so two calls on
the same unmodified diagram necessarily produce identical buffers and
the diagram itself is untouched. -/
theorem createTriangles_pure (d : Diagram) (fuel : ℕ) (r1 r2 : Option (List ℚ × List ℕ))
    (h1 : createTriangles d fuel = r1) (h2 : createTriangles d fuel = r2) :
    r1 = r2 := by
  rw [← h1, ← h2]

/-- C9 witness: both calls on the one-site diagram produce the same
concrete buffers. -/
theorem createTriangles_pure_witness :
    some (([0, 0, 0, -1, -1, 0, 1, -1, 0, 1, 1, 0, -1, 1, 0] : List ℚ),
          ([0, 1, 2, 0, 2, 3, 0, 3, 4, 0, 4, 1] : List ℕ))
      = createTriangles ⟨1000, 1000,
          [⟨0, 0, 0⟩, ⟨1, 1000, 0⟩, ⟨2, 1000, 1000⟩, ⟨3, 0, 1000⟩],
          [⟨0, 0, 0, none, 3, 1⟩, ⟨1, 0, 1, none, 0, 2⟩,
           ⟨2, 0, 2, none, 1, 3⟩, ⟨3, 0, 3, none, 2, 0⟩],
          [⟨0, 500, 500, 0⟩]⟩ 10 :=
  createTriangles_pure _ 10 _ _ (by decide) rfl

/-- Folding a list of updates `sol.set r (f sol r)` never changes the
length of the solution vector. -/
lemma foldl_set_length (l : List ℕ) (f : List ℚ → ℕ → ℚ) :
    ∀ sol : List ℚ, (List.foldl (fun s r => s.set r (f s r)) sol l).length = sol.length := by
  induction l with
  | nil => intro sol; rfl
  | cons x xs ih =>
    intro sol
    simpa [List.length_set] using ih (sol.set x (f sol x))

/-- A successful `solve_from_row_matrix_view` returns `cols − 1`
values. -/
lemma solveFromRowMatrixView_ok_length (v : RowMatrixView) (res : List ℚ)
    (v2 : RowMatrixView) (h : solveFromRowMatrixView v = (.ok res, v2)) :
    res.length = v.colsN - 1 := by
  simp only [solveFromRowMatrixView] at h
  split at h
  · rename_i hc
    simp only [Prod.mk.injEq, Except.ok.injEq] at h
    rw [← h.1, hc]
    rfl
  · split at h
    · simp at h
    · split at h
      · rename_i horder
        simp only [Prod.mk.injEq, Except.ok.injEq] at h
        rw [← h.1, foldl_set_length ((List.range (triangulateUpper v).1).reverse)
          (fun sol row =>
            backSubstValue (triangulateUpper v).2 (triangulateUpper v).1 sol row),
          List.length_replicate, horder]
      · simp at h

/-- C10: whenever the linear solver succeeds on a matrix with at least
one column, the solution vector has exactly `cols − 1` entries; in
particular a successful solve of the 2×3 parameter system built by
`set_parameter_equations` yields exactly two parameters, so the
unchecked accesses `solution[0]` and `solution[1]` of
`solve_for_parameters` are in bounds. -/
theorem solveFromMatrix_ok_length :
    (∀ (m : MatrixVar) (res : List ℚ) (m2 : MatrixVar), 1 ≤ m.cols →
      solveFromMatrix m = (.ok res, m2) → res.length = m.cols - 1) ∧
    (∀ (p1 d1 p2 d2 : Vector2F64) (res : List ℚ) (m2 : MatrixVar),
      solveFromMatrix (setParameterEquations p1 d1 p2 d2) = (.ok res, m2) →
      res.length = 2) := by
  have main : ∀ (m : MatrixVar) (res : List ℚ) (m2 : MatrixVar),
      solveFromMatrix m = (.ok res, m2) → res.length = m.cols - 1 := by
    intro m res m2 h
    have h1 : (solveFromRowMatrixView (RowMatrixView.fromMatrix m)).1 = .ok res := by
      have := congrArg Prod.fst h
      simpa [solveFromMatrix] using this
    have heq : solveFromRowMatrixView (RowMatrixView.fromMatrix m)
        = (.ok res, (solveFromRowMatrixView (RowMatrixView.fromMatrix m)).2) := by
      rw [← h1]
    have := solveFromRowMatrixView_ok_length _ _ _ heq
    simpa [RowMatrixView.colsN, RowMatrixView.fromMatrix] using this
  refine ⟨fun m res m2 _ h => main m res m2 h,
          fun p1 d1 p2 d2 res m2 h => ?_⟩
  have := main _ res m2 h
  simpa [setParameterEquations] using this

/-- C10 witness: the solver on the concrete 2×3 parameter system of the
downward ray against the top side of `[0,10]×[0,10]` returns the two
parameters `k = 5`, `j = 1/2`. -/
theorem solveFromMatrix_ok_length_witness :
    (((5 : ℚ) :: (1 / 2 : ℚ) :: []) : List ℚ).length
      = (setParameterEquations ⟨5, 5⟩ ⟨0, -1⟩ ⟨0, 0⟩ ⟨10, 0⟩).cols - 1 :=
  solveFromMatrix_ok_length.1 (setParameterEquations ⟨5, 5⟩ ⟨0, -1⟩ ⟨0, 0⟩ ⟨10, 0⟩)
    [5, 1 / 2]
    (solveFromMatrix (setParameterEquations ⟨5, 5⟩ ⟨0, -1⟩ ⟨0, 0⟩ ⟨10, 0⟩)).2
    (by decide) (by decide)

end Fortune
